import Mathlib

/-
  Shallow embedding of the blockshare node's core request handlers:

  - src/server/src/utils/cryptoUtils.js
      (verifySignature, verifyNonce, addToMempool, isMempoolFull,
       loadBlockchainState, getBalanceByAddress)
  - src/server/src/controllers/blockchainController.js
      (registerNode, submitTxn, checkBalanceByAdd)

  JSON files on disk (blockchainState.json, mempool.json, the peer list)
  are modelled as explicit values threaded through the functions.  The
  SHA-256 hex digest used by verifySignature comes from node's crypto
  library, so it is a parameter `H : String -> String` of every function
  that uses it; no proof below depends on which function it is.  JS
  exceptions (a thrown ReferenceError, a JSON.parse failure) are made
  explicit in the result types.
-/

namespace Blockshare

/-- An account record stored in blockchainState.json: a balance and the
current (last confirmed) nonce. -/
structure Account where
  balance : Nat
  nonce : Nat
deriving Repr, DecidableEq

/-- The ledger state: the address-keyed mapping held in
blockchainState.json, modelled as an association list. -/
def Ledger : Type := List (String × Account)

instance : DecidableEq Ledger := by
  unfold Ledger
  infer_instance

/-- JS property lookup `state[sender]` on the ledger object: the account
stored under the address, if any. -/
def lookupAccount (state : Ledger) (address : String) : Option Account :=
  (state.find? (fun p => p.1 == address)).map Prod.snd

/-- A transaction as built by submitTxn: `{ sender, recipient, amt, nonce, sign }`. -/
structure Txn where
  sender : String
  recipient : String
  amt : Nat
  nonce : Nat
  sign : String
deriving Repr, DecidableEq

/-- The body of a POST /transactions request before field validation:
each field may be absent.  `none` models an absent (undefined) field. -/
structure TxnReq where
  sender : Option String
  recipient : Option String
  amt : Option Nat
  nonce : Option Nat
  sign : Option String
deriving Repr, DecidableEq

/-- JS falsiness of a string-valued request field: absent (undefined) or
the empty string. -/
def falsyS : Option String → Bool
  | none => true
  | some s => s == ""

/-- JS falsiness of a numeric request field: absent (undefined) or 0. -/
def falsyN : Option Nat → Bool
  | none => true
  | some n => n == 0

/-- The outcome of a request handler: an HTTP response with a status code
and message, or an uncaught JS exception (e.g. a ReferenceError for a
name that was never imported). -/
inductive Outcome where
  | res (status : Nat) (msg : String)
  | thrown (err : String)
deriving Repr, DecidableEq

/-- cryptoUtils.verifySignature: concatenates the four public fields into
the template string, hashes it with SHA-256 (hex), and compares the digest
to the supplied sign with `===`.  `H` is the SHA-256 hex digest function. -/
def verifySignature (H : String → String) (sender recipient : String)
    (amt nonce : Nat) (sign : String) : Bool :=
  let data := sender ++ recipient ++ toString amt ++ toString nonce
  let hash := H data
  hash == sign

/-- cryptoUtils.verifyNonce: loads the ledger state, returns false when
the sender has no account, otherwise checks nonce === account.nonce + 1. -/
def verifyNonce (state : Ledger) (sender : String) (nonce : Nat) : Bool :=
  match lookupAccount state sender with
  | none => false
  | some account => nonce == account.nonce + 1

/-- cryptoUtils.addToMempool: reads mempool.json, pushes the transaction,
writes it back, and returns true.  (The catch branch returning false only
fires when the mempool file itself is unreadable; the file is modelled as
a well-formed list here.) -/
def addToMempool (mempool : List Txn) (transaction : Txn) : Bool × List Txn :=
  (true, mempool ++ [transaction])

/-- cryptoUtils.isMempoolFull: reads mempool.json and returns
mempool.length > 8. -/
def isMempoolFull (mempool : List Txn) : Bool :=
  mempool.length > 8

/-- cryptoUtils.getBalanceByAddress: the body is `const balance = 0;
return balance;` — it ignores its argument and returns 0. -/
def getBalanceByAddress (_address : String) : Nat :=
  0

/-- blockchainController.submitTxn.  Input: the SHA-256 digest `H`, the
persisted ledger state, the persisted mempool, and the request body.
Output: the HTTP outcome and the resulting mempool.  When the mempool is
full after the push, the source calls executeMempool(), which is not
imported into blockchainController.js, so that path throws a
ReferenceError before any response is sent (the transaction has already
been persisted to the mempool at that point). -/
def submitTxn (H : String → String) (state : Ledger) (mempool : List Txn)
    (req : TxnReq) : Outcome × List Txn :=
  if falsyS req.sender || falsyS req.recipient || falsyN req.amt
      || falsyN req.nonce || falsyS req.sign then
    (.res 400 "All fields (sender, recipient, amt, nonce, sign) are required", mempool)
  else
    let s := req.sender.getD ""
    let r := req.recipient.getD ""
    let a := req.amt.getD 0
    let n := req.nonce.getD 0
    let g := req.sign.getD ""
    if !verifySignature H s r a n g then
      (.res 400 "Invalid signature", mempool)
    else if !verifyNonce state s n then
      (.res 400 "Invalid nonce", mempool)
    else
      let transaction : Txn := ⟨s, r, a, n, g⟩
      let added := addToMempool mempool transaction
      if !added.1 then
        (.res 500 "Failed to add transaction to mempool", mempool)
      else if isMempoolFull added.2 then
        (.thrown "ReferenceError: executeMempool is not defined", added.2)
      else
        (.res 200 "Transaction submitted successfully", added.2)

/-- A peer directory entry.  The source stores the port under the key
provided_port while the (dead) inner function of the duplicate check reads
node.port; since that inner function is never invoked, the mismatch is
unobservable and the entry is modelled with a single port field. -/
structure PeerNode where
  ip : String
  port : Nat
  public_key : String
deriving Repr, DecidableEq

/-- The duplicate check of registerNode:
`peerNodes.some(node => node.public_key === public_key || (node => ...))`.
The second disjunct is an arrow-function literal, which as a JS value is
truthy, so the predicate evaluates truthy for every node; the `|| true`
below is that truthiness made explicit. -/
def nodeExists (peerNodes : List PeerNode) (public_key : String) : Bool :=
  peerNodes.any (fun node => node.public_key == public_key || true)

/-- blockchainController.registerNode.  `isValidSignature` is the verdict
of verifyNodeSignature (middlewares/nodeAuth.js, outside the provided
sources) and `isNodeActive` the verdict of the liveness ping; both are
parameters.  Output: the HTTP outcome, the resulting peer directory, and
whether savePeerNodes was called. -/
def registerNode (isValidSignature : Bool) (isNodeActive : Bool)
    (peerNodes : List PeerNode) (ip : String) (provided_port : Nat)
    (public_key : String) : Outcome × List PeerNode × Bool :=
  if !isValidSignature then
    (.res 403 "Invalid signature", peerNodes, false)
  else if !isNodeActive then
    (.res 400 "Node verification failed", peerNodes, false)
  else if nodeExists peerNodes public_key then
    (.res 400 "Node already exists", peerNodes, false)
  else
    (.res 200 "Node registered successfully",
     peerNodes ++ [⟨ip, provided_port, public_key⟩], true)

/-- blockchainController.checkBalanceByAdd: 404 when the address is absent
from the ledger state, otherwise 200 with a body carrying the address and
getBalanceByAddress(address). -/
def checkBalanceByAdd (state : Ledger) (address : String) :
    Nat × Option (String × Nat) :=
  match lookupAccount state address with
  | none => (404, none)
  | some _ => (200, some (address, getBalanceByAddress address))

/-- The state of the persisted blockchainState.json file: absent, or
present with some text content (possibly empty or unparseable). -/
def FileState : Type := Option String

/-- cryptoUtils.ensureFileExists: writes initialContent when the file is
absent; the result is the file content visible to the subsequent read. -/
def ensureFileExists (file : FileState) (initialContent : String) : String :=
  match file with
  | none => initialContent
  | some c => c

/-- cryptoUtils.loadBlockchainState with JS exceptions made explicit:
JSON.parse is the parameter `parse`, which may fail (throw).  The result
is an Except so that a propagated exception would be visible as an
error value; the try/catch of the source returns the empty mapping on
parse failure instead.  The second component is the file content after
the call (ensureFileExists creates the file with content "\x7b\x7d" when
absent). -/
def loadBlockchainState (parse : String → Except String Ledger)
    (file : FileState) : Except String (Ledger × String) :=
  let content := ensureFileExists file "\x7b\x7d"
  match parse content with
  | .ok state => .ok (state, content)
  | .error _ => .ok (([] : Ledger), content)

/-! Concrete fixtures for evaluating the handlers.  `idHash` is a concrete
stand-in for the SHA-256 hex digest, used only to instantiate the hash
parameter `H` in concrete runs; none of the properties proved about those
runs depend on which function it is. -/

/-- Concrete stand-in digest function for instantiating `H`. -/
def idHash : String → String := fun s => s

/-- Account A of the spec scenario: balance 100, nonce 0. -/
def acctA : Account := ⟨100, 0⟩

/-- Ledger holding only account A. -/
def stateA : Ledger := [("A", acctA)]

/-- The digest of the public fields of the scenario transaction
(sender A, recipient B, amount 30, nonce 1) under `idHash` — exactly the
value verifySignature accepts as sign. -/
def signA : String := idHash ("A" ++ "B" ++ toString (30 : Nat) ++ toString (1 : Nat))

/-- The scenario request: A sends 30 to B with nonce 1. -/
def reqA : TxnReq := ⟨some "A", some "B", some 30, some 1, some signA⟩

/-- The transaction object submitTxn builds from `reqA`. -/
def txnA : Txn := ⟨"A", "B", 30, 1, signA⟩

/-- A request from A with nonce 5 (a future nonce) and matching digest. -/
def req5 : TxnReq :=
  ⟨some "A", some "B", some 30, some 5,
   some (idHash ("A" ++ "B" ++ toString (30 : Nat) ++ toString (5 : Nat)))⟩

/-- A ledger in which A holds only 10 units. -/
def stateAPoor : Ledger := [("A", ⟨10, 0⟩)]

/-- An existing peer directory entry. -/
def peerK1 : PeerNode := ⟨"1.1.1.1", 1, "K1"⟩

/-- C1: the claim says no value computable from the public transaction
fields alone is accepted by verifySignature.  In the code, the digest of
the concatenated public fields — computable by anyone from (sender,
recipient, amt, nonce), no private key involved — is accepted, for every
digest function and every transaction. -/
theorem verifySignature_accepts_forgery (H : String → String)
    (sender recipient : String) (amt nonce : Nat) :
    verifySignature H sender recipient amt nonce
      (H (sender ++ recipient ++ toString amt ++ toString nonce)) = true := by
  simp [verifySignature]

/-- C2: the claim says the second submission of the same valid transaction
(no block applied in between) is rejected with InvalidNonce.  In the code,
submitTxn never updates the ledger state, so verifyNonce still passes on
the resubmission: both submissions return 200 and the mempool holds the
transaction twice. -/
theorem replay_submission_accepted_twice :
    submitTxn idHash stateA [] reqA
      = (.res 200 "Transaction submitted successfully", [txnA]) ∧
    submitTxn idHash stateA [txnA] reqA
      = (.res 200 "Transaction submitted successfully", [txnA, txnA]) := by
  constructor <;> rfl

/-- C3: the claim says a transaction whose amount exceeds the sender's
balance fails with InsufficientFunds and is kept out of the mempool.  The
code performs no balance check: with A holding 10, a transfer of 30 with a
valid signature and nonce is accepted and admitted to the mempool. -/
theorem insufficient_funds_accepted :
    (lookupAccount stateAPoor "A").map Account.balance = some 10 ∧
    10 < 30 ∧
    submitTxn idHash stateAPoor [] reqA
      = (.res 200 "Transaction submitted successfully", [txnA]) := by
  refine ⟨rfl, by norm_num, rfl⟩

/-- C4: the claim says the capacity threshold is 8 — after 8 valid
transactions accumulate, a block with all 8 is produced and the mempool
empties.  In the code isMempoolFull is mempool.length > 8, so with 8
transactions accumulated nothing triggers; and the 9th valid submission
does trigger the branch, which calls executeMempool — a name never
imported into blockchainController.js — so it throws a ReferenceError
with all 9 transactions still in the persisted mempool (clearMempool has
an empty body, mineBlock returns an undefined variable). -/
theorem mempool_threshold_not_eight (mempool : List Txn)
    (h : mempool.length = 8) :
    isMempoolFull mempool = false ∧
    submitTxn idHash stateA mempool reqA
      = (.thrown "ReferenceError: executeMempool is not defined",
         mempool ++ [txnA]) := by
  constructor
  · simp [isMempoolFull, h]
  · simp [submitTxn, reqA, falsyS, falsyN, verifySignature, verifyNonce,
      lookupAccount, stateA, acctA, signA, idHash, addToMempool,
      isMempoolFull, h, txnA]
    decide

/-- Witness for C4's theorem at a concrete mempool of 8 transactions. -/
theorem mempool_threshold_not_eight_witness :
    isMempoolFull (List.replicate 8 txnA) = false ∧
    submitTxn idHash stateA (List.replicate 8 txnA) reqA
      = (.thrown "ReferenceError: executeMempool is not defined",
         List.replicate 8 txnA ++ [txnA]) :=
  mempool_threshold_not_eight (List.replicate 8 txnA) (by simp)

/-- C5: the claim says the uniqueness check fails iff an existing entry
matches by publicKey or by (address, port), and a candidate matching
neither passes.  In the code the second disjunct of the check is an
arrow-function literal (truthy), so every existing entry matches: a
candidate agreeing with the sole directory entry on none of publicKey,
address and port is still rejected as a duplicate, and the directory is
left unchanged with no save. -/
theorem distinct_peer_rejected_as_duplicate :
    (peerK1.public_key == "K2") = false ∧
    (peerK1.ip == "2.2.2.2") = false ∧
    (peerK1.port == 2) = false ∧
    nodeExists [peerK1] "K2" = true ∧
    registerNode true true [peerK1] "2.2.2.2" 2 "K2"
      = (.res 400 "Node already exists", [peerK1], false) := by
  refine ⟨rfl, rfl, rfl, rfl, rfl⟩

/-- C6 counterexample: the claim says a sender with no account yields
UnknownSender, distinguished from InvalidNonce.  In the code an absent
sender produces exactly the same 400 response as a wrong nonce from an
existing account — the message of the InvalidNonce case — so the absent
case is not reported as UnknownSender. -/
theorem unknown_sender_not_distinguished :
    lookupAccount ([] : Ledger) "A" = none ∧
    submitTxn idHash [] [] reqA = (.res 400 "Invalid nonce", []) ∧
    submitTxn idHash stateA [] req5 = (.res 400 "Invalid nonce", []) := by
  refine ⟨rfl, rfl, rfl⟩

/-- C6 amended: for a well-formed request with a signature the code
accepts, an absent sender and a wrong nonce both produce the 400
InvalidNonce response (the code does not distinguish UnknownSender), and
a nonce equal to account.nonce + 1 passes the nonce check. -/
theorem nonce_check_modes (H : String → String) (state : Ledger)
    (mempool : List Txn) (s r g : String) (a n : Nat)
    (hs : (s == "") = false) (hr : (r == "") = false)
    (ha : (a == 0) = false) (hn : (n == 0) = false)
    (hg : (g == "") = false)
    (hsig : verifySignature H s r a n g = true) :
    (lookupAccount state s = none →
      submitTxn H state mempool ⟨some s, some r, some a, some n, some g⟩
        = (.res 400 "Invalid nonce", mempool)) ∧
    (∀ account, lookupAccount state s = some account →
      (n == account.nonce + 1) = false →
      submitTxn H state mempool ⟨some s, some r, some a, some n, some g⟩
        = (.res 400 "Invalid nonce", mempool)) ∧
    (∀ account, lookupAccount state s = some account →
      n = account.nonce + 1 → verifyNonce state s n = true) := by
  refine ⟨fun hnone => ?_, fun account hacct hbad => ?_, fun account hacct hgood => ?_⟩
  · simp [submitTxn, falsyS, falsyN, hs, hr, ha, hn, hg, hsig,
      verifyNonce, hnone]
  · simp [submitTxn, falsyS, falsyN, hs, hr, ha, hn, hg, hsig,
      verifyNonce, hacct, hbad]
  · simp [verifyNonce, hacct, hgood]

/-- Witness for C6's amended theorem: the absent-sender branch at the
concrete scenario request against the empty ledger. -/
theorem nonce_check_modes_witness :
    submitTxn idHash [] []
        ⟨some "A", some "B", some (30 : Nat), some (1 : Nat), some signA⟩
      = (.res 400 "Invalid nonce", []) :=
  (nonce_check_modes idHash [] [] "A" "B" signA 30 1 (by decide) (by decide)
    (by decide) (by decide) (by decide) (by decide)).1 rfl

/-- C7: the claim says the balance endpoint returns the queried account's
stored balance (not a constant).  In the code, an unknown address does get
404, but a known address gets 200 with getBalanceByAddress, whose body
ignores the address and returns the constant 0: account A stores balance
100 yet the endpoint reports 0. -/
theorem balance_endpoint_returns_constant_zero :
    checkBalanceByAdd stateA "A" = (200, some ("A", 0)) ∧
    (lookupAccount stateA "A").map Account.balance = some 100 ∧
    (0 : Nat) ≠ 100 ∧
    checkBalanceByAdd stateA "B" = (404, none) := by
  refine ⟨rfl, rfl, by norm_num, rfl⟩

/-- C8: when the registration signature does not verify, registerNode
responds 403 InvalidSignature and returns before the peer directory is
even loaded: for every liveness verdict, directory, and candidate, the
directory is unchanged and savePeerNodes is not called. -/
theorem invalid_signature_leaves_directory_unchanged (isNodeActive : Bool)
    (peerNodes : List PeerNode) (ip : String) (provided_port : Nat)
    (public_key : String) :
    registerNode false isNodeActive peerNodes ip provided_port public_key
      = (.res 403 "Invalid signature", peerNodes, false) := by
  rfl

/-- C9: loadBlockchainState is total and never propagates an exception:
for every behaviour of JSON.parse and every file state (absent, empty,
well-formed, or unparseable) the result is an ok value, the persisted
content is the original content — created as "\x7b\x7d" when the file was
absent — and the returned mapping is the parsed one, falling back to the
empty mapping when parsing fails. -/
theorem loadBlockchainState_never_throws
    (parse : String → Except String Ledger) (file : FileState) :
    loadBlockchainState parse file =
      .ok ((match parse (ensureFileExists file "\x7b\x7d") with
            | .ok state => state
            | .error _ => ([] : Ledger)),
           ensureFileExists file "\x7b\x7d") := by
  unfold loadBlockchainState
  cases h : parse (ensureFileExists file "\x7b\x7d") <;> simp [h]

/-- C10: any request with a missing or falsy field — including amount 0 or
nonce 0 — is rejected 400 with the all-fields-required message, before the
signature or nonce checks run (the response does not depend on the digest
function or the ledger state) and with the mempool unchanged. -/
theorem malformed_request_rejected_first (H : String → String)
    (state : Ledger) (mempool : List Txn) (req : TxnReq)
    (h : (falsyS req.sender || falsyS req.recipient || falsyN req.amt
          || falsyN req.nonce || falsyS req.sign) = true) :
    submitTxn H state mempool req
      = (.res 400 "All fields (sender, recipient, amt, nonce, sign) are required",
         mempool) := by
  simp [submitTxn, h]

/-- Witness for C10's theorem: a request with amount 0 (all other fields
present) is rejected as malformed. -/
theorem malformed_request_rejected_first_witness :
    submitTxn idHash stateA []
        ⟨some "A", some "B", some (0 : Nat), some (1 : Nat), some signA⟩
      = (.res 400 "All fields (sender, recipient, amt, nonce, sign) are required",
         []) :=
  malformed_request_rejected_first idHash stateA []
    ⟨some "A", some "B", some 0, some 1, some signA⟩ (by decide)

end Blockshare
